import Mathlib

/-!
Shallow embedding of the integrity-gating engine of PEA-RECO3FIRSTMODEL
(src/reco2: engine.py, store.py, input_gate.py, output_gate.py,
orchestrator.py, config.py) and proofs about the frozen claims.

Modelling conventions:
* Python floats are modelled as exact numbers in a linear ordered field
  (instantiated at ℚ where the claims need executable witnesses and at ℝ
  where the code uses exp/tanh/sqrt).
* Python dicts are modelled as association lists; an absent dict key in a
  returned payload is modelled as an Option field being none.
* Python round(x, 6) is modelled by pyRound6; Python rounds ties to even
  while Mathlib's round rounds ties up, which only differs at exact ties
  (never hit by the facts proved here).
* Timestamps and uuids (datetime.now / uuid4) are nondeterministic inputs
  of the Python functions and are passed as explicit String parameters.
-/

/-- Whitespace strip as in Python str.strip() (modulo the exotic Unicode
whitespace characters, which never occur in the values considered here). -/
def pyStrip (s : String) : String :=
  ⟨((s.data.dropWhile Char.isWhitespace).reverse.dropWhile Char.isWhitespace).reverse⟩

/-- Python round(x, 6): round to 6 decimal digits. -/
def pyRound6 {α : Type} [LinearOrderedField α] [FloorRing α] (x : α) : α :=
  ((round (x * 1000000) : ℤ) : α) / 1000000

/-- Number of non-overlapping occurrences of a pattern, scanning left to
right, as Python str.count; fuel-based so the kernel can evaluate it. -/
def count_occs_aux (w : List Char) : Nat → List Char → Nat
  | 0, _ => 0
  | fuel + 1, t =>
    if w.isPrefixOf t then
      match t with
      | [] => 0
      | _ :: _ => 1 + count_occs_aux w fuel (t.drop w.length)
    else
      match t with
      | [] => 0
      | _ :: t2 => count_occs_aux w fuel t2

/-- Python t.count(w) for a non-empty pattern w. -/
def count_occs (w t : List Char) : Nat :=
  count_occs_aux w t.length t

/-- Python substring test (w in t). -/
def contains_tok (w : List Char) : List Char → Bool
  | [] => w.isPrefixOf []
  | c :: t2 => w.isPrefixOf (c :: t2) || contains_tok w t2

/-- Lower-casing of a string, character by character (Python str.lower; the
lexicons below only contain ASCII letters and Japanese characters, on which
the two agree). -/
def lowerChars (l : List Char) : List Char := l.map Char.toLower

/-- The _count_hits helper shared by input_gate.py and output_gate.py:
sum of occurrence counts of each lowered word in the lowered text, skipping
empty words. -/
def count_hits (text : String) (words : List String) : Nat :=
  (words.map (fun w =>
    if w.data = [] then 0 else count_occs (lowerChars w.data) (lowerChars text.data))).sum

/-- One element of session_logs (engine.py, entry built in evaluate_payload). -/
structure SessionLogEntry (α : Type) where
  session_id : String
  ts : String
  domain : String
  D : α
  T : α
  psi : α
  verdict : String
  reward : Option α
  feedback : Option String
deriving Repr, DecidableEq

/-- The persisted engine state (store.py default_state / engine.py accessors).
The created_at/updated_at timestamps are not modelled: no claim mentions
them and save_state only overwrites updated_at. -/
structure EngineState (α : Type) where
  k : α
  eta : α
  T_base : α
  k_min : α
  k_max : α
  eta_min : α
  eta_max : α
  total_sessions : Nat
  domains : List (String × α)
  used_session_ids : List (String × String)
  session_logs : List (SessionLogEntry α)
deriving Repr, DecidableEq

/-- The default engine state of store.py default_state(). -/
def default_state (α : Type) [LinearOrderedField α] : EngineState α :=
  { k := 1.5, eta := 0.01, T_base := 0.8,
    k_min := 0.5, k_max := 5.0, eta_min := 0.001, eta_max := 0.1,
    total_sessions := 0, domains := [], used_session_ids := [], session_logs := [] }

section EngineDefs

variable {α : Type} [LinearOrderedField α]

/-- engine.py _clamp. -/
def clampF (x lo hi : α) : α := max lo (min hi x)

/-- engine.py _get_domain_weight: dict get with default 1.0. -/
def get_domain_weight (st : EngineState α) (domain : String) : α :=
  (st.domains.lookup domain).getD 1

/-- Association-list update modelling Python dict assignment. -/
def upsert (l : List (String × α)) (d : String) (w : α) : List (String × α) :=
  if l.any (fun p => p.1 == d) then
    l.map (fun p => if p.1 == d then (d, w) else p)
  else
    l ++ [(d, w)]

/-- engine.py _set_domain_weight. -/
def set_domain_weight (st : EngineState α) (domain : String) (w : α) : EngineState α :=
  { st with domains := upsert st.domains domain w }

/-- engine.py _append_session_log: append and keep only the last 2000. -/
def append_session_log (st : EngineState α) (e : SessionLogEntry α) : EngineState α :=
  let logs := st.session_logs ++ [e]
  { st with session_logs := if logs.length > 2000 then logs.drop (logs.length - 2000) else logs }

/-- The context dict of an evaluation request, with the fields the engine
reads (engine.py _context_match_score / _purity / evaluate_payload). -/
structure Context (α : Type) where
  domain : String
  confidence : α
  domain_known : Bool
  missing_fields : Nat
  warnings : Nat
deriving Repr

/-- engine.py _context_match_score. -/
def context_match_score (ctx : Context α) : α :=
  let conf := max 0 (min 1 ctx.confidence)
  let score := conf
  let score := if ctx.domain_known then min 1 (score + 0.10) else score
  let score := score - 0.03 * (ctx.missing_fields : α)
  let score := score - 0.04 * (ctx.warnings : α)
  max 0 (min 1 score)

/-- engine.py _purity. -/
def purityF (ctx : Context α) : α :=
  let s := context_match_score ctx
  let s := if ctx.domain_known then s else s * 0.90
  max 0 (min 1 s)

/-- engine.py _alpha. -/
def alphaF (cms : α) : α := 1 + cms * 0.2

/-- engine.py _beta. -/
def betaF (purity : α) : α := if purity > 0.8 then 1 else max 0.5 purity

/-- engine.py _verdict_from_psi. -/
def verdict_from_psi (psi : α) : String × String :=
  if psi ≥ 1.2 then ("reliable", "信頼できる")
  else if psi ≥ 0.8 then ("moderate", "ふつう")
  else ("suspect", "あやしい")

/-- engine.py _confidence_adjusted. -/
def confidence_adjusted (base_conf psi : α) : α :=
  let base_conf := max 0 (min 1 base_conf)
  let factor := max 0.6 (min 1.25 (psi / 1.2))
  max 0 (min 1 (base_conf * factor))

/-- Reward value chosen by record_feedback from the feedback string. -/
def reward_of (fb : String) : α :=
  if fb = "good" then 1 else if fb = "recalculate" then 0.3 else -1

/-- The non-error JSON object returned by record_feedback; reward and
new_weight are Option because the duplicate branch returns a dict without
those keys. -/
structure FeedbackResponse (α : Type) where
  status : String
  reward : Option α
  new_weight : Option α
  domain : String
deriving Repr, DecidableEq

/-- Reverse-scan update of the most recent matching log entry
(the for-loop over range(len(logs)-1, -1, -1) with break in
record_feedback); update_first_match applies to the reversed list. -/
def update_first_match (sid : String) (R : α) (fb : String) :
    List (SessionLogEntry α) → List (SessionLogEntry α)
  | [] => []
  | e :: rest =>
    if e.session_id == sid then { e with reward := some R, feedback := some fb } :: rest
    else e :: update_first_match sid R fb rest

/-- Back-fill of the most recent log entry with the given session id. -/
def backfill (logs : List (SessionLogEntry α)) (sid : String) (R : α) (fb : String) :
    List (SessionLogEntry α) :=
  (update_first_match sid R fb logs.reverse).reverse

end EngineDefs

section EngineOps

variable {α : Type} [LinearOrderedField α] [FloorRing α]

/-- engine.py record_feedback. The error tuples (dict, 400) are modelled as
Except.error carrying the error code; now is the _now_iso() timestamp. -/
def record_feedback (now : String) (st : EngineState α)
    (session_id domain feedback : String) :
    Except String (FeedbackResponse α) × EngineState α :=
  let sid := pyStrip session_id
  let dom := pyStrip domain
  let fb := pyStrip feedback
  if sid = "" then (.error "session_id_required", st)
  else if dom = "" then (.error "domain_required", st)
  else if ¬(fb = "good" ∨ fb = "bad" ∨ fb = "recalculate") then (.error "invalid_feedback", st)
  else
    let R : α := reward_of fb
    if (st.used_session_ids.lookup sid).isSome then
      (.ok { status := "duplicate_ignored", reward := none, new_weight := none, domain := dom }, st)
    else
      let st1 := { st with used_session_ids := st.used_session_ids ++ [(sid, now)] }
      let W_old := get_domain_weight st1 dom
      let W_new := W_old + st1.eta * R
      let st2 := set_domain_weight st1 dom W_new
      let st3 := { st2 with session_logs := backfill st2.session_logs sid R fb }
      (.ok { status := "recorded", reward := some R, new_weight := some (pyRound6 W_new),
             domain := dom }, st3)

/-- Window statistics carried in the patrol result dict. -/
structure WindowStats (α : Type) where
  avgD : α
  sumR : α
  avgPsi : α
  window_size : Nat
deriving Repr, DecidableEq

/-- The dict returned by patrol; the early no-logs return carries neither a
window nor a manual key, hence the Option fields. -/
structure PatrolResult (α : Type) where
  adjusted : Bool
  reason : String
  new_k : α
  new_eta : α
  window : Option (WindowStats α)
  manual : Option Bool
deriving Repr, DecidableEq

/-- engine.py patrol, as a pure state transformer (load_state/save_state
become the explicit state argument and result). -/
def patrol (st : EngineState α) (manual : Bool) : PatrolResult α × EngineState α :=
  if st.session_logs = [] then
    ({ adjusted := false, reason := "no_logs", new_k := st.k, new_eta := st.eta,
       window := none, manual := none }, st)
  else
    let logs := st.session_logs
    let window := if logs.length ≥ 10 then logs.drop (logs.length - 10) else logs
    let Ds := window.map (fun e => e.D)
    let Rs := (window.filter (fun e => e.reward.isSome)).map (fun e => e.reward.getD 0)
    let psis := window.map (fun e => e.psi)
    let avgD := Ds.sum / ((max 1 Ds.length : Nat) : α)
    let sumR := Rs.sum
    let avgPsi := psis.sum / ((max 1 psis.length : Nat) : α)
    let k0 := st.k
    let eta0 := st.eta
    let s1 : α × α × Bool × List String :=
      if avgD > 0.3 ∧ sumR < 0 then
        (k0 + 0.1, eta0 * 1.05, true, ["avgD>0.3 & sumR<0 -> strictify"])
      else (k0, eta0, false, [])
    let s2 : α × α × Bool × List String :=
      if avgD < 0.1 ∧ sumR > 0 then
        (s1.1 - 0.05, s1.2.1, true, s1.2.2.2 ++ ["avgD<0.1 & sumR>0 -> relax"])
      else s1
    let s3 : α × α × Bool × List String :=
      if avgD > 0.3 ∧ sumR > 0 then
        (s2.1, s2.2.1 * 1.02, true, s2.2.2.2 ++ ["avgD>0.3 & sumR>0 -> learn faster"])
      else s2
    let s4 : α × α × Bool × List String :=
      if avgPsi < 0.5 then
        (s3.1 + 0.05, s3.2.1, true, s3.2.2.2 ++ ["avgPsi<0.5 -> tighten"])
      else s3
    let kC := clampF s4.1 st.k_min st.k_max
    let etaC := clampF s4.2.1 st.eta_min st.eta_max
    let reasons := s4.2.2.2
    ({ adjusted := s4.2.2.1,
       reason := if reasons = [] then "no_change" else String.intercalate "; " reasons,
       new_k := pyRound6 kC, new_eta := pyRound6 etaC,
       window := some { avgD := pyRound6 avgD, sumR := pyRound6 sumR,
                        avgPsi := pyRound6 avgPsi, window_size := window.length },
       manual := some manual }, { st with k := kC, eta := etaC })

end EngineOps

/-- engine.py _euclidean_distance over the intersection of the key sets
(falling back to the union when the intersection is empty). Python sorts the
keys before summing; the sum does not depend on the enumeration order, so the
sort is omitted. The evidence association list maps each key directly to its
median value (the e.get of the inner dicts). -/
noncomputable def euclidean_distance (I P : List (String × ℝ)) : ℝ :=
  let ikeys := (I.map Prod.fst).dedup
  let pkeys := (P.map Prod.fst).dedup
  let inter := ikeys.filter (fun k => k ∈ pkeys)
  let keys := if inter = [] then (ikeys ++ pkeys).dedup else inter
  Real.sqrt ((keys.map (fun k =>
    let i := (I.lookup k).getD 0
    let m := (P.lookup k).getD 0
    (i - m) * (i - m))).sum)

/-- engine.py _temperature. -/
noncomputable def temperature (T_base k D : ℝ) : ℝ :=
  max 0.1 (T_base * Real.exp (-(k * D)))

/-- engine.py _integrity. -/
noncomputable def integrity (T_final alphaV betaV : ℝ) : ℝ := (1 / T_final) * alphaV * betaV

/-- The meta block of the evaluation response. -/
structure EvalMeta where
  k : ℝ
  eta : ℝ
  total_sessions : Nat
  domain_weight : ℝ
  context_match_score : ℝ
  purity : ℝ
  alpha : ℝ
  beta : ℝ

/-- The evaluation response dict; session_id and meta are Option because the
orchestrator fallback produces a response without them (session_id None and a
meta holding only an error string, modelled by meta_error). -/
structure EvalResult where
  session_id : Option String
  deviation : ℝ
  temperature : ℝ
  integrity : ℝ
  confidence_adjusted : ℝ
  verdict : String
  verdict_ja : String
  meta : Option EvalMeta
  meta_error : Option String

/-- engine.py evaluate_payload as a pure state transformer. The uuid4
session id and the _now_iso timestamp are the session_id and ts parameters;
a ValueError becomes Except.error. The payload-type checks on dicts are
carried by the types of the parameters. -/
noncomputable def evaluate_payload (st : EngineState ℝ) (session_id ts : String)
    (inference evidence : List (String × ℝ)) (ctx : Context ℝ) :
    Except String (EvalResult × EngineState ℝ) :=
  let dom := pyStrip ctx.domain
  if dom = "" then .error "context.domain is required"
  else
    let D := euclidean_distance inference evidence
    let cms := context_match_score ctx
    let pur := purityF ctx
    let alphaV := alphaF cms
    let betaV := betaF pur
    let T := temperature st.T_base st.k D
    let psi := integrity T alphaV betaV
    let conf_adj := confidence_adjusted ctx.confidence psi
    let v := verdict_from_psi psi
    let entry : SessionLogEntry ℝ :=
      { session_id := session_id, ts := ts, domain := dom,
        D := pyRound6 D, T := pyRound6 T, psi := pyRound6 psi,
        verdict := v.1, reward := none, feedback := none }
    let st1 := append_session_log { st with total_sessions := st.total_sessions + 1 } entry
    let total := st1.total_sessions
    let st2 := if total % 10 = 0 then (patrol st1 false).2 else st1
    .ok ({ session_id := some session_id,
           deviation := pyRound6 D, temperature := pyRound6 T, integrity := pyRound6 psi,
           confidence_adjusted := pyRound6 conf_adj,
           verdict := v.1, verdict_ja := v.2,
           meta := some { k := st2.k, eta := st2.eta, total_sessions := total,
                          domain_weight := get_domain_weight st2 dom,
                          context_match_score := pyRound6 cms, purity := pyRound6 pur,
                          alpha := pyRound6 alphaV, beta := pyRound6 betaV },
           meta_error := none }, st2)

/-! Input gate (input_gate.py). -/

def AMBIGUITY_JA : List String :=
  ["なんか", "とか", "なんとなく", "適当に", "いい感じに", "うまく",
   "よしなに", "それっぽく", "ざっくり", "てきとう", "ふわっと",
   "なんでもいい", "おまかせ", "どうにか"]
def AMBIGUITY_EN : List String :=
  ["something like", "somehow", "whatever", "kind of", "sort of",
   "just do it", "figure it out", "make it work",
   "anything", "stuff", "things"]
def ASSERTION_JA : List String :=
  ["絶対", "必ず", "断言して", "確実に", "100%", "間違いない",
   "保証して", "確定で", "例外なく", "完全に正しい"]
def ASSERTION_EN : List String :=
  ["absolutely", "definitely", "guarantee", "must be", "certainly",
   "without doubt", "100%", "always true", "never wrong", "prove that"]
def EMOTION_JA : List String :=
  ["急いで", "今すぐ", "早く", "できないの", "使えない",
   "お願いだから", "頼むから", "なんで", "いい加減にして",
   "ふざけるな", "ちゃんとして", "まだ", "いつまで"]
def EMOTION_EN : List String :=
  ["hurry", "asap", "right now", "useless",
   "please just", "why can't", "come on",
   "seriously", "for god's sake", "how hard can it be"]
def UNREALISTIC_JA : List String :=
  ["全て解決", "完璧に", "一瞬で", "万能な", "無限に",
   "失敗しない", "バグのない", "最強の", "究極の", "永久に",
   "全自動で", "ワンクリックで", "何でもできる"]
def UNREALISTIC_EN : List String :=
  ["solve everything", "perfect", "instantly", "omnipotent", "infinite",
   "never fail", "bug-free", "ultimate", "forever",
   "fully automatic", "one click", "do anything", "solve all"]

/-- input_gate.py / output_gate.py _saturating_score. -/
noncomputable def saturating_score (count : Nat) (sensitivity : ℝ) : ℝ :=
  Real.tanh (((count : ℝ) / 3) * sensitivity)

/-- Keyword-hit count of the ambiguity category. -/
def input_c_amb (text : String) : Nat :=
  count_hits text AMBIGUITY_JA + count_hits text AMBIGUITY_EN

/-- Keyword-hit count of the assertion-demand category. -/
def input_c_ass (text : String) : Nat :=
  count_hits text ASSERTION_JA + count_hits text ASSERTION_EN

/-- Exclamation-mark count (half and full width). -/
def input_ex (text : String) : Nat :=
  count_occs ['!'] text.data + count_occs ['！'] text.data

/-- Keyword-hit count of the emotional-pressure category, with the
punctuation boost capped at 3. -/
def input_c_emo (text : String) : Nat :=
  count_hits text EMOTION_JA + count_hits text EMOTION_EN
    + (if input_ex text ≠ 0 then min 3 (input_ex text) else 0)

/-- Keyword-hit count of the unrealistic-expectation category. -/
def input_c_unr (text : String) : Nat :=
  count_hits text UNREALISTIC_JA + count_hits text UNREALISTIC_EN

/-- Number of simultaneously active categories. -/
def input_active (text : String) : Nat :=
  ([input_c_amb text, input_c_ass text, input_c_emo text, input_c_unr text].filter
    (fun x => x > 0)).length

/-- The weighted pre-deviation before escalation. -/
noncomputable def input_pre_d_base (text : String)
    (w_ambiguity w_assertion w_emotion w_unrealistic : ℝ) : ℝ :=
  saturating_score (input_c_amb text) 1.1 * w_ambiguity
    + saturating_score (input_c_ass text) 1.8 * w_assertion
    + saturating_score (input_c_emo text) 2.0 * w_emotion
    + saturating_score (input_c_unr text) 1.8 * w_unrealistic

/-- The pre-deviation after the escalation rules of input_gate.analyze. -/
noncomputable def input_pre_d (text : String)
    (w_ambiguity w_assertion w_emotion w_unrealistic : ℝ) : ℝ :=
  let p := input_pre_d_base text w_ambiguity w_assertion w_emotion w_unrealistic
  if input_active text ≥ 3 then min 1 (p * 1.25)
  else if input_active text = 2 ∧ (input_c_emo text > 0 ∧
      (input_c_ass text > 0 ∨ input_c_unr text > 0)) then min 1 (p * 1.10)
  else p

/-- Risk level, action and temperature modifier from the pre-deviation. -/
noncomputable def input_level (pre_d : ℝ) : String × String × ℝ :=
  if pre_d ≥ 0.70 then ("critical", "cool_down", 0.3)
  else if pre_d ≥ 0.50 then ("high", "conditional", 0.5)
  else if pre_d ≥ 0.30 then ("moderate", "clarify", 0.7)
  else ("low", "proceed", 1.0)

/-- The dict returned by input_gate.analyze. -/
structure InputAnalysis where
  ambiguity : ℝ
  assertion_demand : ℝ
  emotional_pressure : ℝ
  unrealistic : ℝ
  pre_d : ℝ
  risk_level : String
  action : String
  temperature_modifier : ℝ
  warnings : List String

/-- input_gate.py analyze. -/
noncomputable def input_analyze (text : String)
    (w_ambiguity w_assertion w_emotion w_unrealistic : ℝ) : InputAnalysis :=
  let p := input_pre_d text w_ambiguity w_assertion w_emotion w_unrealistic
  let lv := input_level p
  { ambiguity := pyRound6 (saturating_score (input_c_amb text) 1.1),
    assertion_demand := pyRound6 (saturating_score (input_c_ass text) 1.8),
    emotional_pressure := pyRound6 (saturating_score (input_c_emo text) 2.0),
    unrealistic := pyRound6 (saturating_score (input_c_unr text) 1.8),
    pre_d := pyRound6 p,
    risk_level := lv.1, action := lv.2.1, temperature_modifier := lv.2.2,
    warnings :=
      (if input_c_amb text ≠ 0 then ["曖昧な表現が含まれます"] else [])
        ++ (if input_c_ass text ≠ 0 then ["断定要求が含まれます"] else [])
        ++ (if input_c_emo text ≠ 0 then ["感情的圧力が検出されました"] else [])
        ++ (if input_c_unr text ≠ 0 then ["非現実的な前提が含まれます"] else []) }

/-- input_gate.py rebuild_prompt (reading the risk_level key of the analysis). -/
def rebuild_prompt (user_input : String) (analysis : InputAnalysis) : String × String :=
  if analysis.risk_level = "critical" then ("", "critical")
  else if analysis.risk_level = "low" then (user_input, "none")
  else if analysis.risk_level = "moderate" then
    ("[指針: 不確実な点は明記し、根拠を添えて回答してください。]\n" ++ user_input, "moderate")
  else
    ("[重要指針: 断定を避け、根拠を明示し、不明な点は「わかりません」と答えてください。]\n" ++ user_input, "high")

/-! Output gate (output_gate.py). -/

def CONTRADICTION_PAIRS : List (String × String) :=
  [("必ず", "かもしれません"), ("絶対に", "可能性があります"),
   ("確実に", "不確実"), ("always", "sometimes"),
   ("never", "occasionally"), ("definitely", "might"),
   ("100%", "uncertain")]

def SOFTEN_JA : List (String × String) :=
  [("必ず", "多くの場合"), ("絶対に", "ほぼ"),
   ("間違いなく", "おそらく"), ("確実に", "高い確率で")]

def SOFTEN_EN : List (String × String) :=
  [("definitely", "likely"), ("absolutely", "very likely"),
   ("certainly", "probably"), ("always", "typically"),
   ("never", "rarely")]

def ASSERT_TOKENS : List String :=
  ["必ず", "絶対", "間違いなく", "確実", "100%",
   "definitely", "absolutely", "certainly", "always", "never"]

def PROVOCATIVE : List String :=
  ["バカ", "アホ", "ふざけるな", "舐めるな", "ゴミ",
   "使えない", "役に立たない",
   "idiot", "stupid", "shut up", "trash", "useless"]

def EVIDENCE_MARKERS : List String :=
  ["出典", "引用", "根拠", "データ", "論文", "参考", "URL", "リンク",
   "source", "citation", "evidence", "data", "paper", "study", "link",
   "http://", "https://"]

/-- output_gate.py _contradiction_hits: a pair counts only when both of its
members occur in the lowered text. -/
def contradiction_hits (t : String) : Nat :=
  (CONTRADICTION_PAIRS.filter (fun p =>
    contains_tok (lowerChars p.1.data) (lowerChars t.data)
      && contains_tok (lowerChars p.2.data) (lowerChars t.data))).length

/-- Assertion-token count of output_gate.analyze (on the stripped text). -/
def out_assert_count (text : String) : Nat :=
  count_hits (pyStrip text) ASSERT_TOKENS

/-- Provocative-token count of output_gate.analyze. -/
def out_prov_count (text : String) : Nat :=
  count_hits (pyStrip text) PROVOCATIVE

/-- Contradiction-pair count of output_gate.analyze. -/
def out_contra_hits (text : String) : Nat :=
  contradiction_hits (pyStrip text)

/-- Evidence-marker presence of output_gate.analyze. -/
def out_has_evidence (text : String) : Bool :=
  count_hits (pyStrip text) EVIDENCE_MARKERS > 0

/-- The evidence-gap count: saturated to 5 when assertions occur without any
evidence marker, else 0. -/
def out_evgap_count (text : String) : Nat :=
  if out_assert_count text > 0 ∧ ¬(out_has_evidence text = true) then 5 else 0

/-- The scores sub-dict of the output analysis. -/
structure OutputScores where
  assertion_density : ℝ
  evidence_gap : ℝ
  contradiction : ℝ
  provocative : ℝ

/-- The counts sub-dict of the output analysis. -/
structure OutputCounts where
  assertions : Nat
  contradictions : Nat
  provocative : Nat

/-- The dict returned by output_gate.analyze (notes flattened into
has_evidence). -/
structure OutputAnalysis where
  scores : OutputScores
  post_d : ℝ
  level : String
  action : String
  psi_modifier : ℝ
  counts : OutputCounts
  has_evidence : Bool

/-- The weighted post-deviation of output_gate.analyze. -/
noncomputable def output_post_d (text : String)
    (w_assertion w_evidence w_contradiction w_provocative : ℝ) : ℝ :=
  saturating_score (out_assert_count text) 1.4 * w_assertion
    + saturating_score (out_evgap_count text) 1.2 * w_evidence
    + saturating_score (out_contra_hits text) 1.5 * w_contradiction
    + saturating_score (out_prov_count text) 1.3 * w_provocative

/-- output_gate.py analyze. -/
noncomputable def output_analyze (text : String)
    (w_assertion w_evidence w_contradiction w_provocative : ℝ) : OutputAnalysis :=
  let post_d := output_post_d text w_assertion w_evidence w_contradiction w_provocative
  let psi_mod := max 0.3 (1 - post_d * 0.7)
  let la : String × String :=
    if post_d ≥ 0.70 then ("critical", "regenerate")
    else if post_d ≥ 0.50 then ("degraded", "soften")
    else if post_d ≥ 0.30 then ("cautious", "annotate")
    else ("healthy", "pass")
  { scores := { assertion_density := pyRound6 (saturating_score (out_assert_count text) 1.4),
                evidence_gap := pyRound6 (saturating_score (out_evgap_count text) 1.2),
                contradiction := pyRound6 (saturating_score (out_contra_hits text) 1.5),
                provocative := pyRound6 (saturating_score (out_prov_count text) 1.3) },
    post_d := pyRound6 post_d,
    level := la.1, action := la.2,
    psi_modifier := pyRound6 psi_mod,
    counts := { assertions := out_assert_count text,
                contradictions := out_contra_hits text,
                provocative := out_prov_count text },
    has_evidence := out_has_evidence text }

/-- Left-to-right non-overlapping replacement as Python str.replace,
fuel-based for kernel evaluation. -/
def replace_aux (a b : List Char) : Nat → List Char → List Char
  | 0, t => t
  | fuel + 1, t =>
    if a.isPrefixOf t then
      match t with
      | [] => b
      | _ :: _ => b ++ replace_aux a b fuel (t.drop a.length)
    else
      match t with
      | [] => []
      | c :: t2 => c :: replace_aux a b fuel t2

/-- Python s.replace(a, b) for a non-empty pattern. -/
def py_replace (s a b : String) : String :=
  ⟨replace_aux a.data b.data s.data.length s.data⟩

/-- output_gate.py soften: Japanese substitutions on the original text, then
the whole text is lower-cased and the English substitutions applied; the
lower-cased merge is returned. -/
def soften (text : String) : String :=
  let out := SOFTEN_JA.foldl (fun acc p => py_replace acc p.1 p.2) text
  let low : String := ⟨lowerChars out.data⟩
  SOFTEN_EN.foldl (fun acc p => py_replace acc p.1 p.2) low

/-! Orchestrator (orchestrator.py). -/

/-- The values load_config() hands to Orchestrator.process (config.py keys
that process reads). -/
structure Config where
  psi_regen_threshold : ℝ
  psi_annot_threshold : ℝ
  max_regen_attempts : Nat
  base_temperature : ℝ
  input_w_ambiguity : ℝ
  input_w_assertion : ℝ
  input_w_emotion : ℝ
  input_w_unrealistic : ℝ
  output_w_assertion : ℝ
  output_w_evidence : ℝ
  output_w_contradiction : ℝ
  output_w_provocative : ℝ

/-- The _DEFAULTS of config.py restricted to the fields process reads. -/
def default_config : Config :=
  { psi_regen_threshold := 0.50, psi_annot_threshold := 0.80,
    max_regen_attempts := 2, base_temperature := 0.7,
    input_w_ambiguity := 0.20, input_w_assertion := 0.25,
    input_w_emotion := 0.30, input_w_unrealistic := 0.25,
    output_w_assertion := 0.30, output_w_evidence := 0.30,
    output_w_contradiction := 0.25, output_w_provocative := 0.15 }

/-- Modelled from the spec: the fixed system prompt string RECO3_SYSTEM_PROMPT
(the source file src/reco2/system_prompt.py is not part of src/; the spec only
says a fixed system prompt is passed to the adapter, and no claim depends on
its content). -/
def RECO3_SYSTEM_PROMPT : String := "RECO3 system prompt"

/-- The dict returned by LLMAdapter.generate (usage is not consumed by the
orchestrator and is omitted). -/
structure GenRes where
  text : String
  model : String

/-- The injected LLM adapter: a function of prompt, temperature, max_tokens
and system prompt; Except.error models the RuntimeError failure path. -/
def LLM : Type := String → ℝ → Nat → String → Except String GenRes

/-- The optional context dict handed to process (only the keys the engine
reads; none models an absent key). -/
structure CtxArg where
  confidence : Option ℝ
  domain_known : Option Bool
  missing_fields : Option Nat
  warnings : Option Nat

/-- The dict returned by Orchestrator.process. The annotated key is absent in
the cool-down dict, hence Option. -/
structure ProcessResult where
  session_id : Option String
  response : String
  input_analysis : InputAnalysis
  output_analysis : Option OutputAnalysis
  reco2_evaluation : Option EvalResult
  temperature_used : ℝ
  regenerated : Bool
  attempts : Nat
  annotated : Option Bool
  llm_model : Option String

/-- Orchestrator._cool_down_result message. -/
def cool_down_msg (warns : List String) : String :=
  let warn_lines :=
    if warns = [] then "  * (none)"
    else String.intercalate "\n" (warns.map (fun w => "  * " ++ w))
  "-- 冷却モード --\n入力の分析結果、以下の点が検出されました：\n" ++ warn_lines
    ++ "\nより具体的で冷静な質問に書き直していただけますか？\n正確で誠実な回答をするために、ご協力をお願いします。"

/-- Orchestrator._cool_down_result. -/
def cool_down_result (ia : InputAnalysis) : ProcessResult :=
  { session_id := none, response := cool_down_msg ia.warnings,
    input_analysis := ia, output_analysis := none, reco2_evaluation := none,
    temperature_used := 0.0, regenerated := false, attempts := 0,
    annotated := none, llm_model := none }

/-- The regeneration loop of process (the for-loop over
range(max(1, MAX_REGEN_ATTEMPTS))): returns the last generation, the last
output analysis, the final temperature, the attempt count, the regenerated
flag and the number of adapter invocations. -/
noncomputable def regen_loop (llm : LLM) (cfg : Config) (prompt : String)
    (max_tokens : Nat) :
    Nat → GenRes → Option OutputAnalysis → ℝ → Nat → Bool → Nat →
    Except String (GenRes × Option OutputAnalysis × ℝ × Nat × Bool × Nat)
  | 0, res, oa, temp, attempts, regen, calls => .ok (res, oa, temp, attempts, regen, calls)
  | fuel + 1, _, _, temp, attempts, regen, calls =>
    match llm prompt temp max_tokens RECO3_SYSTEM_PROMPT with
    | .error e => .error ("LLM generation failed: " ++ e)
    | .ok r =>
      let oa := output_analyze r.text cfg.output_w_assertion cfg.output_w_evidence
        cfg.output_w_contradiction cfg.output_w_provocative
      if oa.psi_modifier ≥ cfg.psi_regen_threshold then
        .ok (r, some oa, temp, attempts + 1, regen, calls + 1)
      else
        regen_loop llm cfg prompt max_tokens fuel r (some oa)
          (max 0.1 (temp * 0.6)) (attempts + 1) true (calls + 1)

/-- Orchestrator.process as a pure function. The engine state is passed
explicitly; session_id/ts are the uuid and timestamp evaluate_payload would
draw; the last component of the result counts the LLMAdapter.generate
invocations. Except.error models the re-raised RuntimeError of a failed
generation. -/
noncomputable def process (cfg : Config) (llm : LLM) (st : EngineState ℝ)
    (session_id ts : String) (user_input domain : String)
    (context : Option CtxArg) (max_tokens : Nat) :
    Except String (ProcessResult × EngineState ℝ × Nat) :=
  let ia := input_analyze user_input cfg.input_w_ambiguity cfg.input_w_assertion
    cfg.input_w_emotion cfg.input_w_unrealistic
  let adj_temp := max 0.1 (min 1 (cfg.base_temperature * ia.temperature_modifier))
  if ia.risk_level = "critical" then .ok (cool_down_result ia, st, 0)
  else
    let effective_prompt := (rebuild_prompt user_input ia).1
    match regen_loop llm cfg effective_prompt max_tokens
        (max 1 cfg.max_regen_attempts) { text := "", model := "unknown" } none
        adj_temp 0 false 0 with
    | .error e => .error e
    | .ok (res, oaOpt, adj_temp2, attempts, regenerated, calls) =>
      let text0 := res.text
      let action := match oaOpt with | some oa => oa.action | none => "pass"
      let annotated := action = "annotate" ∨ action = "regenerate"
      let text_out :=
        if action = "soften" then soften text0
        else if action = "annotate" then
          "（注）不確実性が残るため、断定を避けています。\n\n" ++ text0
        else if action = "regenerate" then
          "（警告）誠実度の観点で出力に問題がある可能性があります。\n\n" ++ text0
        else text0
      let c0 : CtxArg := context.getD { confidence := none, domain_known := none,
                                        missing_fields := none, warnings := none }
      let ctx : Context ℝ :=
        { domain := domain, confidence := c0.confidence.getD 0.7,
          domain_known := c0.domain_known.getD false,
          missing_fields := c0.missing_fields.getD 0,
          warnings := c0.warnings.getD 0 }
      let psi_mod := match oaOpt with | some oa => oa.psi_modifier | none => 1
      let evalRes := evaluate_payload st session_id ts
        [("integrity", psi_mod)] [("integrity", psi_mod)] ctx
      match evalRes with
      | .ok (ev, st2) =>
        .ok ({ session_id := ev.session_id, response := text_out,
               input_analysis := ia, output_analysis := oaOpt,
               reco2_evaluation := some ev,
               temperature_used := pyRound6 adj_temp2,
               regenerated := regenerated, attempts := attempts,
               annotated := some annotated, llm_model := some res.model }, st2, calls)
      | .error e =>
        let fb : EvalResult :=
          { session_id := none, deviation := 0.0, temperature := 0.0,
            integrity := 0.0, confidence_adjusted := 0.5,
            verdict := "unknown", verdict_ja := "評価不可",
            meta := none, meta_error := some e }
        .ok ({ session_id := none, response := text_out,
               input_analysis := ia, output_analysis := oaOpt,
               reco2_evaluation := some fb,
               temperature_used := pyRound6 adj_temp2,
               regenerated := regenerated, attempts := attempts,
               annotated := some annotated, llm_model := some res.model }, st, calls)

/-! Further definitions used by the claim statements. -/

/-- The bounds invariant of the control gains, with the bounds read from the
state. -/
def in_bounds {α : Type} [LinearOrderedField α] (st : EngineState α) : Prop :=
  st.k_min ≤ st.k ∧ st.k ≤ st.k_max ∧ st.eta_min ≤ st.eta ∧ st.eta ≤ st.eta_max

/-- Stated from the claim wording of C4: a single clamp to the unit interval
applied to the unclamped linear combination
confidence + 0.10 (if domain known) - 0.03 missing - 0.04 warnings. -/
def context_match_score_spec {α : Type} [LinearOrderedField α] (ctx : Context α) : α :=
  max 0 (min 1 (ctx.confidence + (if ctx.domain_known then 0.10 else 0)
    - 0.03 * (ctx.missing_fields : α) - 0.04 * (ctx.warnings : α)))

/-- Concrete context used to separate the computed context-match score from
the claimed single-clamp formula. -/
def ctx_c4 : Context ℚ :=
  { domain := "d", confidence := 0.95, domain_known := true,
    missing_fields := 1, warnings := 0 }

/-- Concrete session-log entry used in the log-cap witness. -/
def log_entry0 : SessionLogEntry ℚ :=
  { session_id := "s", ts := "t", domain := "d", D := 0, T := 0, psi := 0,
    verdict := "suspect", reward := none, feedback := none }

/-- Concrete evaluation context used in the evaluation-chain witness. -/
noncomputable def ctx_c3 : Context ℝ :=
  { domain := "general", confidence := 0.7, domain_known := true,
    missing_fields := 0, warnings := 0 }

/-- Concrete user input scoring critical: nine repetitions of one token from
each input category (ambiguity, emotion, assertion, unrealistic). -/
def txt_crit : String :=
  "なんか今すぐ絶対一瞬でなんか今すぐ絶対一瞬でなんか今すぐ絶対一瞬でなんか今すぐ絶対一瞬でなんか今すぐ絶対一瞬でなんか今すぐ絶対一瞬でなんか今すぐ絶対一瞬でなんか今すぐ絶対一瞬でなんか今すぐ絶対一瞬で"

/-- A concrete injected adapter used in the short-circuit witness. -/
def llm_dummy : LLM := fun _ _ _ _ => Except.ok { text := "ok", model := "dummy" }

/-! Helper lemmas about association-list lookups. -/

/-- Appending a binding for a key that is absent makes lookup find it. -/
theorem lookup_append_of_none {β : Type} (l : List (String × β)) (k : String) (v : β)
    (h : l.lookup k = none) : (l ++ [(k, v)]).lookup k = some v := by
  induction l with
  | nil => simp [List.lookup]
  | cons p tl ih =>
    rcases p with ⟨a, b⟩
    cases hk : (k == a) with
    | true =>
      rw [List.lookup, hk] at h
      cases h
    | false =>
      rw [List.lookup, hk] at h
      rw [List.cons_append, List.lookup, hk]
      exact ih h

/-- Lookup after the map branch of upsert, when some binding matches. -/
theorem lookup_map_replace {α : Type} (l : List (String × α)) (d : String) (w : α)
    (h : l.any (fun p => p.1 == d) = true) :
    (l.map (fun p => if p.1 == d then (d, w) else p)).lookup d = some w := by
  induction l with
  | nil => simp at h
  | cons p tl ih =>
    rcases p with ⟨a, b⟩
    by_cases ha : a = d
    · subst ha
      simp only [List.map_cons]
      rw [if_pos (beq_self_eq_true a)]
      simp [List.lookup]
    · have hb : (a == d) = false := beq_eq_false_iff_ne.mpr ha
      have htl : tl.any (fun p => p.1 == d) = true := by
        simpa [List.any_cons, hb] using h
      have hda : (d == a) = false := beq_eq_false_iff_ne.mpr (fun hgoal => ha hgoal.symm)
      simp only [List.map_cons]
      rw [if_neg (by simp [hb])]
      rw [List.lookup, hda]
      exact ih htl

/-- Lookup misses every association list without a matching key. -/
theorem lookup_eq_none_of_no_key {α : Type} (l : List (String × α)) (d : String) :
    ¬(l.any (fun p => p.1 == d) = true) → l.lookup d = none := by
  induction l with
  | nil => intro _; rfl
  | cons p tl ih =>
    intro h
    rcases p with ⟨a, b⟩
    have ha : ¬a = d := by
      intro hval
      exact h (by simp [List.any_cons, hval])
    have htl : ¬(tl.any fun p => p.1 == d) = true := by
      intro hval
      exact h (by simp [List.any_cons, hval])
    have hda : (d == a) = false := beq_eq_false_iff_ne.mpr (fun hgoal => ha hgoal.symm)
    rw [List.lookup, hda]
    exact ih htl

/-- Lookup of the updated key after upsert. -/
theorem lookup_upsert {α : Type} (l : List (String × α)) (d : String) (w : α) :
    (upsert l d w).lookup d = some w := by
  unfold upsert
  by_cases h : l.any (fun p => p.1 == d) = true
  · rw [if_pos h]
    exact lookup_map_replace l d w h
  · rw [if_neg h]
    exact lookup_append_of_none l d w (lookup_eq_none_of_no_key l d h)

/-! Characterisations of record_feedback. -/

section RecordFeedbackLemmas

variable {α : Type} [LinearOrderedField α] [FloorRing α]

/-- Behaviour of record_feedback on a fresh (unused) session id with valid
fields: full description of the response and the successor state. -/
theorem record_feedback_fresh (st : EngineState α) (now session_id domain feedback : String)
    (hs : pyStrip session_id ≠ "") (hd : pyStrip domain ≠ "")
    (hf : pyStrip feedback = "good" ∨ pyStrip feedback = "bad" ∨
      pyStrip feedback = "recalculate")
    (hu : st.used_session_ids.lookup (pyStrip session_id) = none) :
    record_feedback now st session_id domain feedback =
      (Except.ok { status := "recorded",
                   reward := some (reward_of (pyStrip feedback)),
                   new_weight := some (pyRound6 (get_domain_weight st (pyStrip domain)
                     + st.eta * reward_of (pyStrip feedback))),
                   domain := pyStrip domain },
       { st with
           used_session_ids := st.used_session_ids ++ [(pyStrip session_id, now)],
           domains := upsert st.domains (pyStrip domain)
             (get_domain_weight st (pyStrip domain)
               + st.eta * reward_of (pyStrip feedback)),
           session_logs := backfill st.session_logs (pyStrip session_id)
             (reward_of (pyStrip feedback)) (pyStrip feedback) }) := by
  have hfne : ¬¬(pyStrip feedback = "good" ∨ pyStrip feedback = "bad" ∨
      pyStrip feedback = "recalculate") := not_not_intro hf
  have hdup : ¬((st.used_session_ids.lookup (pyStrip session_id)).isSome = true) := by
    simp [hu]
  simp only [record_feedback]
  rw [if_neg hs, if_neg hd, if_neg hfne, if_neg hdup]
  rfl

/-- Behaviour of record_feedback on an already-used session id with valid
fields: the duplicate_ignored response, and the state is untouched. -/
theorem record_feedback_dup (st : EngineState α) (now session_id domain feedback : String)
    (hs : pyStrip session_id ≠ "") (hd : pyStrip domain ≠ "")
    (hf : pyStrip feedback = "good" ∨ pyStrip feedback = "bad" ∨
      pyStrip feedback = "recalculate")
    (hu : (st.used_session_ids.lookup (pyStrip session_id)).isSome = true) :
    record_feedback now st session_id domain feedback =
      (Except.ok { status := "duplicate_ignored", reward := none, new_weight := none,
                   domain := pyStrip domain }, st) := by
  have hfne : ¬¬(pyStrip feedback = "good" ∨ pyStrip feedback = "bad" ∨
      pyStrip feedback = "recalculate") := not_not_intro hf
  simp only [record_feedback]
  rw [if_neg hs, if_neg hd, if_neg hfne, if_pos hu]

end RecordFeedbackLemmas

/-- C1: feedback application is idempotent per session: on a state where the
session id is not yet used, a valid feedback request is answered with status
recorded and moves the domain weight by exactly eta times the reward (+1 for
good, -1 for bad, +0.3 for recalculate), and a second call with the same
session id is answered with status duplicate_ignored and leaves the state —
in particular the domain weight and the used_session_ids entry — unchanged. -/
theorem feedback_idempotent_per_session
    (st : EngineState ℚ) (now1 now2 session_id domain feedback domain2 feedback2 : String)
    (hs : pyStrip session_id ≠ "") (hd : pyStrip domain ≠ "")
    (hf : pyStrip feedback = "good" ∨ pyStrip feedback = "bad" ∨
      pyStrip feedback = "recalculate")
    (hu : st.used_session_ids.lookup (pyStrip session_id) = none)
    (hd2 : pyStrip domain2 ≠ "")
    (hf2 : pyStrip feedback2 = "good" ∨ pyStrip feedback2 = "bad" ∨
      pyStrip feedback2 = "recalculate") :
    ∃ r1 st1 r2 st2,
      record_feedback now1 st session_id domain feedback = (Except.ok r1, st1) ∧
      record_feedback now2 st1 session_id domain2 feedback2 = (Except.ok r2, st2) ∧
      r1.status = "recorded" ∧
      get_domain_weight st1 (pyStrip domain) =
        get_domain_weight st (pyStrip domain)
          + st.eta * (if pyStrip feedback = "good" then 1
                      else if pyStrip feedback = "bad" then -1 else 0.3) ∧
      r2.status = "duplicate_ignored" ∧
      st1.used_session_ids.lookup (pyStrip session_id) = some now1 ∧
      st2 = st1 := by
  have h1 := record_feedback_fresh st now1 session_id domain feedback hs hd hf hu
  set W_new : ℚ := get_domain_weight st (pyStrip domain)
    + st.eta * reward_of (pyStrip feedback) with hW
  set st1 : EngineState ℚ :=
    { st with
        used_session_ids := st.used_session_ids ++ [(pyStrip session_id, now1)],
        domains := upsert st.domains (pyStrip domain) W_new,
        session_logs := backfill st.session_logs (pyStrip session_id)
          (reward_of (pyStrip feedback)) (pyStrip feedback) } with hst1
  have hlook : st1.used_session_ids.lookup (pyStrip session_id) = some now1 :=
    lookup_append_of_none _ _ _ hu
  have h2 := record_feedback_dup st1 now2 session_id domain2 feedback2 hs hd2 hf2
    (by rw [hlook]; rfl)
  refine ⟨_, st1, _, st1, h1, h2, rfl, ?_, rfl, hlook, rfl⟩
  have hget : get_domain_weight st1 (pyStrip domain) = W_new := by
    unfold get_domain_weight
    rw [hst1]
    simp only [lookup_upsert]
    rfl
  rw [hget, hW]
  rcases hf with hgood | hbad | hrec
  · rw [hgood]; simp [reward_of]
  · rw [hbad]; simp [reward_of]
  · rw [hrec]; simp [reward_of]

/-- Witness for C1 at a concrete state and request. -/
theorem feedback_idempotent_per_session_witness :
    pyStrip "s1" ≠ "" ∧
    (∃ r1 st1 r2 st2,
      record_feedback "t1" (default_state ℚ) "s1" "math" "good" = (Except.ok r1, st1) ∧
      record_feedback "t2" st1 "s1" "math" "bad" = (Except.ok r2, st2) ∧
      r1.status = "recorded" ∧
      get_domain_weight st1 (pyStrip "math") =
        get_domain_weight (default_state ℚ) (pyStrip "math")
          + (default_state ℚ).eta * (if pyStrip "good" = "good" then 1
              else if pyStrip "good" = "bad" then -1 else 0.3) ∧
      r2.status = "duplicate_ignored" ∧
      st1.used_session_ids.lookup (pyStrip "s1") = some "t1" ∧
      st2 = st1) :=
  ⟨by decide,
   feedback_idempotent_per_session (default_state ℚ) "t1" "t2" "s1" "math" "good" "math" "bad"
     (by decide) (by decide) (Or.inl (by decide)) (by decide) (by decide)
     (Or.inr (Or.inl (by decide)))⟩

/-! Back-fill behaviour when no log entry matches. -/

/-- update_first_match is the identity when no entry has the session id. -/
theorem update_first_match_no_match {α : Type} [LinearOrderedField α]
    (sid : String) (R : α) (fb : String) (l : List (SessionLogEntry α)) :
    (∀ e ∈ l, e.session_id ≠ sid) → update_first_match sid R fb l = l := by
  induction l with
  | nil => intro _; rfl
  | cons e rest ih =>
    intro h
    have he : (e.session_id == sid) = false :=
      beq_eq_false_iff_ne.mpr (h e (List.mem_cons_self e rest))
    rw [update_first_match, if_neg (by simp [he])]
    rw [ih (fun x hx => h x (List.mem_cons_of_mem e hx))]

/-- backfill is the identity when no entry has the session id. -/
theorem backfill_no_match {α : Type} [LinearOrderedField α]
    (logs : List (SessionLogEntry α)) (sid : String) (R : α) (fb : String)
    (h : ∀ e ∈ logs, e.session_id ≠ sid) : backfill logs sid R fb = logs := by
  unfold backfill
  rw [update_first_match_no_match sid R fb logs.reverse
    (fun e he => h e (List.mem_reverse.mp he))]
  exact List.reverse_reverse logs

/-- C9 counterexample: on a state where the session id is already used, the
duplicate_ignored response of record_feedback carries only status and domain;
its reward and new_weight keys are absent (modelled as none), contradicting
the claim that every non-error response contains all four fields. -/
theorem feedback_response_shape_counterexample :
    (record_feedback "t1"
        { default_state ℚ with used_session_ids := [("s1", "t0")] } "s1" "math" "good").1
      = Except.ok { status := "duplicate_ignored", reward := none, new_weight := none,
                    domain := "math" } := by
  rfl

/-- C9 (amended): a valid feedback request always gets a non-error response
carrying status and domain, with status recorded or duplicate_ignored; the
recorded response also carries reward and new_weight, while the
duplicate_ignored response carries neither. -/
theorem feedback_response_shape (st : EngineState ℚ) (now sid dom fb : String)
    (hs : pyStrip sid ≠ "") (hd : pyStrip dom ≠ "")
    (hf : pyStrip fb = "good" ∨ pyStrip fb = "bad" ∨ pyStrip fb = "recalculate") :
    ∃ resp, (record_feedback now st sid dom fb).1 = Except.ok resp ∧
      resp.domain = pyStrip dom ∧
      (resp.status = "recorded" ∨ resp.status = "duplicate_ignored") ∧
      (resp.status = "recorded" → resp.reward.isSome ∧ resp.new_weight.isSome) ∧
      (resp.status = "duplicate_ignored" → resp.reward = none ∧ resp.new_weight = none) := by
  by_cases h : (st.used_session_ids.lookup (pyStrip sid)).isSome = true
  · refine ⟨{ status := "duplicate_ignored", reward := none, new_weight := none,
              domain := pyStrip dom }, ?_, rfl, Or.inr rfl, ?_, fun _ => ⟨rfl, rfl⟩⟩
    · rw [record_feedback_dup st now sid dom fb hs hd hf h]
    · intro hc
      simp at hc
  · have hnone : st.used_session_ids.lookup (pyStrip sid) = none := by
      rcases hopt : st.used_session_ids.lookup (pyStrip sid) with _ | v
      · rfl
      · exact absurd (by rw [hopt]; rfl) h
    refine ⟨{ status := "recorded", reward := some (reward_of (pyStrip fb)),
              new_weight := some (pyRound6 (get_domain_weight st (pyStrip dom)
                + st.eta * reward_of (pyStrip fb))),
              domain := pyStrip dom }, ?_, rfl, Or.inl rfl, fun _ => ⟨rfl, rfl⟩, ?_⟩
    · rw [record_feedback_fresh st now sid dom fb hs hd hf hnone]
    · intro hc
      simp at hc

/-- Witness for C9 at a concrete state and request. -/
theorem feedback_response_shape_witness :
    pyStrip "s1" ≠ "" ∧
    (∃ resp, (record_feedback "t1" (default_state ℚ) "s1" "math" "recalculate").1
        = Except.ok resp ∧
      resp.domain = pyStrip "math" ∧
      (resp.status = "recorded" ∨ resp.status = "duplicate_ignored") ∧
      (resp.status = "recorded" → resp.reward.isSome ∧ resp.new_weight.isSome) ∧
      (resp.status = "duplicate_ignored" → resp.reward = none ∧ resp.new_weight = none)) :=
  ⟨by decide,
   feedback_response_shape (default_state ℚ) "t1" "s1" "math" "recalculate"
     (by decide) (by decide) (Or.inr (Or.inr (by decide)))⟩

/-- C10: feedback for a session id that matches no session-log entry is still
accepted: the response is recorded with the full reward, the session id is
marked used, the domain weight receives the full update
W_new = W_old + eta * reward, and no log entry is back-filled. -/
theorem unknown_session_feedback_accepted (st : EngineState ℚ) (now sid dom fb : String)
    (hs : pyStrip sid ≠ "") (hd : pyStrip dom ≠ "")
    (hf : pyStrip fb = "good" ∨ pyStrip fb = "bad" ∨ pyStrip fb = "recalculate")
    (hu : st.used_session_ids.lookup (pyStrip sid) = none)
    (hlog : ∀ e ∈ st.session_logs, e.session_id ≠ pyStrip sid) :
    ∃ resp st1, record_feedback now st sid dom fb = (Except.ok resp, st1) ∧
      resp.status = "recorded" ∧
      resp.reward = some (reward_of (pyStrip fb)) ∧
      st1.used_session_ids.lookup (pyStrip sid) = some now ∧
      get_domain_weight st1 (pyStrip dom) =
        get_domain_weight st (pyStrip dom) + st.eta * reward_of (pyStrip fb) ∧
      st1.session_logs = st.session_logs := by
  have h1 := record_feedback_fresh st now sid dom fb hs hd hf hu
  refine ⟨_, _, h1, rfl, rfl, lookup_append_of_none _ _ _ hu, ?_, ?_⟩
  · unfold get_domain_weight
    simp only [lookup_upsert]
    rfl
  · exact backfill_no_match st.session_logs (pyStrip sid) _ _ hlog

/-- Witness for C10 at a concrete state and request. -/
theorem unknown_session_feedback_accepted_witness :
    pyStrip "ghost" ≠ "" ∧
    (∃ resp st1,
      record_feedback "t9" (default_state ℚ) "ghost" "law" "bad" = (Except.ok resp, st1) ∧
      resp.status = "recorded" ∧
      resp.reward = some (reward_of (pyStrip "bad")) ∧
      st1.used_session_ids.lookup (pyStrip "ghost") = some "t9" ∧
      get_domain_weight st1 (pyStrip "law") =
        get_domain_weight (default_state ℚ) (pyStrip "law")
          + (default_state ℚ).eta * reward_of (pyStrip "bad") ∧
      st1.session_logs = (default_state ℚ).session_logs) :=
  ⟨by decide,
   unknown_session_feedback_accepted (default_state ℚ) "t9" "ghost" "law" "bad"
     (by decide) (by decide) (Or.inr (Or.inl (by decide))) (by decide) (by decide)⟩

/-! Patrol bounds. -/

/-- Early-return behaviour of patrol on an empty session log: no state
change and the no_logs result. -/
theorem patrol_on_empty {α : Type} [LinearOrderedField α] [FloorRing α]
    (st : EngineState α) (m : Bool) (h : st.session_logs = []) :
    patrol st m = ({ adjusted := false, reason := "no_logs", new_k := st.k,
                     new_eta := st.eta, window := none, manual := none }, st) := by
  unfold patrol
  rw [if_pos h]

/-- One patrol call preserves the bounds invariant. -/
theorem patrol_preserves_in_bounds {α : Type} [LinearOrderedField α] [FloorRing α]
    (st : EngineState α) (m : Bool) (h : in_bounds st) : in_bounds (patrol st m).2 := by
  obtain ⟨h1, h2, h3, h4⟩ := h
  unfold patrol
  split
  · exact ⟨h1, h2, h3, h4⟩
  · exact ⟨le_max_left _ _, max_le (h1.trans h2) (min_le_left _ _),
      le_max_left _ _, max_le (h3.trans h4) (min_le_left _ _)⟩

/-- C2 counterexample: the claim fails as stated for an arbitrary starting
state: when session_logs is empty, patrol returns before clamping, so a
starting state with k out of bounds keeps k out of bounds after the call. -/
theorem patrol_bounds_counterexample :
    ((patrol { default_state ℚ with k := 100 } true).2.k = 100 ∧
      ¬((patrol { default_state ℚ with k := 100 } true).2.k
          ≤ (patrol { default_state ℚ with k := 100 } true).2.k_max)) := by
  rw [patrol_on_empty { default_state ℚ with k := 100 } true rfl]
  refine ⟨rfl, ?_⟩
  show ¬((100 : ℚ) ≤ 5.0)
  norm_num

/-- C2 (amended): for every starting state whose gains already satisfy the
state's bounds, every sequence of patrol() calls keeps
k_min ≤ k ≤ k_max and eta_min ≤ eta ≤ eta_max after each call. -/
theorem patrol_bounds_invariant (st : EngineState ℚ) (ms : List Bool)
    (h : in_bounds st) :
    in_bounds (ms.foldl (fun s m => (patrol s m).2) st) := by
  induction ms generalizing st with
  | nil => exact h
  | cons m rest ih =>
    exact ih ((patrol st m).2) (patrol_preserves_in_bounds st m h)

/-- Witness for C2 at the default state and a concrete call sequence. -/
theorem patrol_bounds_invariant_witness :
    in_bounds (default_state ℚ) ∧
    in_bounds ([true, false, true].foldl (fun s m => (patrol s m).2) (default_state ℚ)) :=
  ⟨by norm_num [in_bounds, default_state],
   patrol_bounds_invariant (default_state ℚ) [true, false, true]
     (by norm_num [in_bounds, default_state])⟩

/-- C8 counterexample: on the default state, whose session_logs is empty, the
patrol result's reason field is the string no_logs, not no_change. -/
theorem patrol_empty_reason_counterexample :
    (default_state ℚ).session_logs = [] ∧
    (patrol (default_state ℚ) true).1.reason ≠ "no_change" ∧
    (patrol (default_state ℚ) true).1.reason = "no_logs" := by
  have hp := patrol_on_empty (default_state ℚ) true rfl
  refine ⟨rfl, ?_, ?_⟩
  · rw [hp]
    decide
  · rw [hp]

/-- C8 (amended): on a state whose session_logs is empty, patrol makes no
adjustment to the state (in particular k and eta are untouched) and returns a
result whose reason field is no_logs, with adjusted false and the current
gains echoed. -/
theorem patrol_empty_log_noop (st : EngineState ℚ) (m : Bool)
    (h : st.session_logs = []) :
    (patrol st m).2 = st ∧
    (patrol st m).1.reason = "no_logs" ∧
    (patrol st m).1.adjusted = false ∧
    (patrol st m).1.new_k = st.k ∧
    (patrol st m).1.new_eta = st.eta := by
  unfold patrol
  rw [if_pos h]
  exact ⟨rfl, rfl, rfl, rfl, rfl⟩

/-- Witness for C8 at the default state. -/
theorem patrol_empty_log_noop_witness :
    (default_state ℚ).session_logs = [] ∧
    ((patrol (default_state ℚ) false).2 = default_state ℚ ∧
     (patrol (default_state ℚ) false).1.reason = "no_logs" ∧
     (patrol (default_state ℚ) false).1.adjusted = false ∧
     (patrol (default_state ℚ) false).1.new_k = (default_state ℚ).k ∧
     (patrol (default_state ℚ) false).1.new_eta = (default_state ℚ).eta) :=
  ⟨rfl, patrol_empty_log_noop (default_state ℚ) false rfl⟩

/-! Context match score (C4). -/

/-- C4 counterexample: with confidence 0.95, domain known, one missing field
and no warnings, the code gives 0.97 (the bonus is capped at 1 before the
penalty is subtracted) while the single-clamp formula of the claim gives 1. -/
theorem context_match_score_counterexample :
    context_match_score ctx_c4 = (0.97 : ℚ) ∧
    context_match_score_spec ctx_c4 = (1 : ℚ) ∧
    context_match_score ctx_c4 ≠ context_match_score_spec ctx_c4 := by
  have h1 : context_match_score ctx_c4 = (0.97 : ℚ) := by
    unfold context_match_score ctx_c4
    norm_num [min_def, max_def]
  have h2 : context_match_score_spec ctx_c4 = (1 : ℚ) := by
    unfold context_match_score_spec ctx_c4
    norm_num [min_def, max_def]
  refine ⟨h1, h2, ?_⟩
  rw [h1, h2]
  norm_num

/-- C4 (amended): for confidence in the unit interval, the computed score is
the clamp to the unit interval of
min 1 (confidence + 0.10 (if domain known)) - 0.03 missing - 0.04 warnings:
the domain-known bonus is capped at 1 before the penalties are subtracted
(only this inner cap distinguishes it from the claimed single-clamp form). -/
theorem context_match_score_eq (d : String) (conf : ℚ) (dk : Bool) (m w : Nat)
    (h0 : 0 ≤ conf) (h1 : conf ≤ 1) :
    context_match_score { domain := d, confidence := conf, domain_known := dk,
                          missing_fields := m, warnings := w } =
      max 0 (min 1 (min 1 (conf + (if dk then 0.10 else 0))
        - 0.03 * (m : ℚ) - 0.04 * (w : ℚ))) := by
  unfold context_match_score
  have hconf : max 0 (min 1 conf) = conf := by
    rw [min_eq_right h1, max_eq_right h0]
  cases dk with
  | false =>
    simp only [Bool.false_eq_true, if_false, hconf]
    rw [add_zero, min_eq_right h1]
  | true =>
    simp only [if_true, hconf]

/-- Witness for C4 at a concrete context. -/
theorem context_match_score_eq_witness :
    ((0 : ℚ) ≤ 0.5 ∧ (0.5 : ℚ) ≤ 1) ∧
    context_match_score ({ domain := "med", confidence := 0.5, domain_known := true,
                           missing_fields := 2, warnings := 1 } : Context ℚ) =
      max 0 (min 1 (min 1 ((0.5 : ℚ) + (if true then 0.10 else 0))
        - 0.03 * ((2 : Nat) : ℚ) - 0.04 * ((1 : Nat) : ℚ))) :=
  ⟨⟨by norm_num, by norm_num⟩,
   context_match_score_eq "med" 0.5 true 2 1 (by norm_num) (by norm_num)⟩

/-! Session-log cap (C6). -/

/-- Uniform description of a single log append: the new log is the suffix of
the appended list that keeps at most the last 2000 entries. -/
theorem append_session_log_logs (st : EngineState ℚ) (e : SessionLogEntry ℚ) :
    (append_session_log st e).session_logs
      = (st.session_logs ++ [e]).drop ((st.session_logs ++ [e]).length - 2000) := by
  unfold append_session_log
  by_cases h : (st.session_logs ++ [e]).length > 2000
  · simp only [if_pos h]
  · simp only [if_neg h]
    rw [Nat.sub_eq_zero_of_le (Nat.le_of_not_lt h), List.drop_zero]

/-- Keeping the last 2000 of an already-capped list appended with more
entries is the same as capping the full concatenation. -/
theorem drop_cap_comp {E : Type} (x y : List E) :
    ((x.drop (x.length - 2000)) ++ y).drop
        (((x.drop (x.length - 2000)) ++ y).length - 2000)
      = (x ++ y).drop ((x ++ y).length - 2000) := by
  rcases le_or_lt x.length 2000 with h | h
  · rw [Nat.sub_eq_zero_of_le h, List.drop_zero]
  · have hs : (x.drop (x.length - 2000)).length = 2000 := by
      rw [List.length_drop]
      omega
    have hi1 : ((x.drop (x.length - 2000)) ++ y).length - 2000 = y.length := by
      rw [List.length_append, hs]
      omega
    have hi2 : (x ++ y).length - 2000 = (x.length - 2000) + y.length := by
      rw [List.length_append]
      omega
    rw [hi1, hi2, List.drop_append_eq_append_drop, List.drop_append_eq_append_drop,
        List.drop_drop, hs]
    have hi3 : (x.length - 2000) + y.length - x.length = y.length - 2000 := by
      omega
    rw [hi3]

/-- Folding appends over a non-empty entry list caps the concatenation. -/
theorem foldl_append_session_log (st : EngineState ℚ) (es : List (SessionLogEntry ℚ))
    (h : es ≠ []) :
    (es.foldl append_session_log st).session_logs
      = (st.session_logs ++ es).drop ((st.session_logs ++ es).length - 2000) := by
  induction es generalizing st with
  | nil => exact absurd rfl h
  | cons e rest ih =>
    rcases eq_or_ne rest [] with hr | hr
    · subst hr
      simpa using append_session_log_logs st e
    · have step := ih (append_session_log st e) hr
      rw [List.foldl_cons, step, append_session_log_logs st e, drop_cap_comp]
      rw [List.append_cons st.session_logs e rest]

/-- C6: for every starting state, after more than 2000 consecutive appended
evaluations the session log consists of exactly the entries of the most
recent 2000 evaluations in creation order, and its length is exactly 2000. -/
theorem session_log_cap (st : EngineState ℚ) (es : List (SessionLogEntry ℚ))
    (h : 2000 < es.length) :
    (es.foldl append_session_log st).session_logs = es.drop (es.length - 2000) ∧
    (es.foldl append_session_log st).session_logs.length = 2000 := by
  have hne : es ≠ [] := by
    intro he
    rw [he] at h
    simp at h
  have h1 := foldl_append_session_log st es hne
  have hmain : (es.foldl append_session_log st).session_logs = es.drop (es.length - 2000) := by
    rw [h1, List.drop_append_eq_append_drop]
    have hnil : st.session_logs.drop ((st.session_logs ++ es).length - 2000)
        = [] := by
      apply List.drop_eq_nil_of_le
      rw [List.length_append]
      omega
    have hidx : (st.session_logs ++ es).length - 2000 - st.session_logs.length
        = es.length - 2000 := by
      rw [List.length_append]
      omega
    rw [hnil, hidx, List.nil_append]
  refine ⟨hmain, ?_⟩
  rw [hmain, List.length_drop]
  omega

/-- Witness for C6: 2001 identical entries appended to the empty default
state leave exactly the last 2000. -/
theorem session_log_cap_witness :
    2000 < (List.replicate 2001 log_entry0).length ∧
    (((List.replicate 2001 log_entry0).foldl append_session_log
          (default_state ℚ)).session_logs
        = (List.replicate 2001 log_entry0).drop
            ((List.replicate 2001 log_entry0).length - 2000) ∧
      ((List.replicate 2001 log_entry0).foldl append_session_log
          (default_state ℚ)).session_logs.length = 2000) :=
  ⟨by rw [List.length_replicate]; omega,
   session_log_cap (default_state ℚ) _ (by rw [List.length_replicate]; omega)⟩

/-! Evaluation formula chain (C3). -/

/-- C3: on every valid evaluation request, evaluate computes
T = max(0.1, T_base * exp(-k * D)) from the state gains and the deviation D,
psi = alpha * beta / T, and the verdict by the 1.2/0.8 thresholds on psi,
and returns these three values (the two numeric ones serialised with the
6-decimal rounding evaluate applies to every numeric response field). -/
theorem evaluate_formula_chain (st : EngineState ℝ) (sid ts : String)
    (inference evidence : List (String × ℝ)) (ctx : Context ℝ)
    (h : pyStrip ctx.domain ≠ "") :
    ∃ r st2, evaluate_payload st sid ts inference evidence ctx
        = Except.ok (r, st2) ∧
      (let D := euclidean_distance inference evidence
       let T := max 0.1 (st.T_base * Real.exp (-(st.k * D)))
       let psi := alphaF (context_match_score ctx) * betaF (purityF ctx) / T
       r.temperature = pyRound6 T ∧
       r.integrity = pyRound6 psi ∧
       r.verdict = (if psi ≥ 1.2 then "reliable"
                    else if psi ≥ 0.8 then "moderate" else "suspect")) := by
  have hpsi : integrity (temperature st.T_base st.k (euclidean_distance inference evidence))
      (alphaF (context_match_score ctx)) (betaF (purityF ctx))
      = alphaF (context_match_score ctx) * betaF (purityF ctx)
        / max 0.1 (st.T_base * Real.exp (-(st.k * euclidean_distance inference evidence))) := by
    unfold integrity temperature
    ring
  unfold evaluate_payload
  rw [if_neg h]
  refine ⟨_, _, rfl, rfl, congrArg pyRound6 hpsi, ?_⟩
  show (verdict_from_psi (integrity (temperature st.T_base st.k
    (euclidean_distance inference evidence)) (alphaF (context_match_score ctx))
    (betaF (purityF ctx)))).1 = _
  rw [hpsi]
  unfold verdict_from_psi
  split_ifs <;> rfl

/-- Witness for C3 at a concrete state and request. -/
theorem evaluate_formula_chain_witness :
    pyStrip (ctx_c3.domain) ≠ "" ∧
    (∃ r st2, evaluate_payload (default_state ℝ) "sid0" "ts0"
        [("integrity", 0.5)] [("integrity", 0.5)] ctx_c3 = Except.ok (r, st2) ∧
      (let D := euclidean_distance [("integrity", (0.5 : ℝ))] [("integrity", (0.5 : ℝ))]
       let T := max 0.1 ((default_state ℝ).T_base
         * Real.exp (-((default_state ℝ).k * D)))
       let psi := alphaF (context_match_score ctx_c3) * betaF (purityF ctx_c3) / T
       r.temperature = pyRound6 T ∧
       r.integrity = pyRound6 psi ∧
       r.verdict = (if psi ≥ 1.2 then "reliable"
                    else if psi ≥ 0.8 then "moderate" else "suspect"))) :=
  ⟨by decide,
   evaluate_formula_chain (default_state ℝ) "sid0" "ts0"
     [("integrity", 0.5)] [("integrity", 0.5)] ctx_c3 (by decide)⟩

/-! Evidence-gap saturation (C7). -/

/-- Hyperbolic tangent in terms of the exponential. -/
theorem tanh_eq_exp (x : ℝ) :
    Real.tanh x = (Real.exp (2*x) - 1) / (Real.exp (2*x) + 1) := by
  have hu : Real.exp x ≠ 0 := (Real.exp_pos x).ne'
  have h2 : Real.exp (2*x) = Real.exp x * Real.exp x := by
    rw [two_mul, Real.exp_add]
  rw [Real.tanh_eq_sinh_div_cosh, Real.sinh_eq, Real.cosh_eq, Real.exp_neg, h2]
  have hden : Real.exp x + (Real.exp x)⁻¹ ≠ 0 := by positivity
  have hden2 : Real.exp x * Real.exp x + 1 ≠ 0 := by positivity
  field_simp

/-- The evidence-gap score produced by output_gate.analyze whenever assertion
tokens occur and no evidence marker occurs: the count saturates to 5, giving
the rounded tanh(5/3 * 1.2). -/
theorem out_evgap_score (text : String) (w1 w2 w3 w4 : ℝ)
    (h1 : 0 < out_assert_count text) (h2 : out_has_evidence text = false) :
    (output_analyze text w1 w2 w3 w4).scores.evidence_gap
      = pyRound6 (Real.tanh (5/3 * 1.2)) := by
  unfold output_analyze
  show pyRound6 (saturating_score (out_evgap_count text) 1.2) = _
  have hc : out_evgap_count text = 5 := by
    unfold out_evgap_count
    rw [if_pos ⟨h1, by simp [h2]⟩]
  rw [hc]
  show pyRound6 (Real.tanh (((5:ℕ):ℝ) / 3 * 1.2)) = pyRound6 (Real.tanh (5 / 3 * 1.2))
  norm_num

/-- Two-sided rational bounds on tanh 2, from the decimal bounds on e. -/
theorem tanh_two_bounds : (0.964027 : ℝ) < Real.tanh 2 ∧ Real.tanh 2 < 0.964028 := by
  have h4 : Real.exp (2*(2:ℝ)) = Real.exp 1 ^ (4:ℕ) := by
    rw [← Real.exp_nat_mul]
    norm_num
  have hlo : (54.5981 : ℝ) < Real.exp 1 ^ (4:ℕ) := by
    have hb : (2.7182818283 : ℝ) ^ (4:ℕ) < Real.exp 1 ^ (4:ℕ) :=
      pow_lt_pow_left₀ Real.exp_one_gt_d9 (by norm_num) (by norm_num)
    nlinarith [hb]
  have hhi : Real.exp 1 ^ (4:ℕ) < (54.5982 : ℝ) := by
    have hb : Real.exp 1 ^ (4:ℕ) < (2.7182818286 : ℝ) ^ (4:ℕ) :=
      pow_lt_pow_left₀ Real.exp_one_lt_d9 (le_of_lt (Real.exp_pos 1)) (by norm_num)
    nlinarith [hb]
  have hpos : (0:ℝ) < Real.exp 1 ^ (4:ℕ) + 1 := by positivity
  rw [tanh_eq_exp, h4]
  constructor
  · rw [lt_div_iff₀ hpos]
    linarith
  · rw [div_lt_iff₀ hpos]
    linarith

/-- Rounding tanh 2 to 6 decimals changes it: tanh 2 lies strictly between
the consecutive multiples 0.964027 and 0.964028 of 10^-6. -/
theorem pyRound6_tanh_two_ne : pyRound6 (Real.tanh 2) ≠ Real.tanh 2 := by
  obtain ⟨hlo, hhi⟩ := tanh_two_bounds
  intro heq
  unfold pyRound6 at heq
  have hy : ((round (Real.tanh 2 * 1000000) : ℤ) : ℝ) = Real.tanh 2 * 1000000 := by
    field_simp at heq
    linarith [heq]
  have h1 : (964027 : ℝ) < ((round (Real.tanh 2 * 1000000) : ℤ) : ℝ) := by
    rw [hy]
    linarith
  have h2 : ((round (Real.tanh 2 * 1000000) : ℤ) : ℝ) < 964028 := by
    rw [hy]
    linarith
  have h1i : (964027 : ℤ) < round (Real.tanh 2 * 1000000) := by exact_mod_cast h1
  have h2i : round (Real.tanh 2 * 1000000) < 964028 := by exact_mod_cast h2
  omega

/-- C7 counterexample: the output text definitely contains an assertion token
and no evidence marker, yet its evidence-gap score is not exactly
tanh(5/3 * 1.2): analyze rounds every score to 6 decimals, and tanh 2 is not
a 6-decimal number. -/
theorem evidence_gap_not_exact :
    0 < out_assert_count "definitely" ∧
    out_has_evidence "definitely" = false ∧
    (output_analyze "definitely" 0.30 0.30 0.25 0.15).scores.evidence_gap
      ≠ Real.tanh (5/3 * 1.2) := by
  refine ⟨by decide, by decide, ?_⟩
  have hval := out_evgap_score "definitely" 0.30 0.30 0.25 0.15 (by decide) (by decide)
  rw [hval]
  have h2 : (5:ℝ)/3 * 1.2 = 2 := by norm_num
  rw [h2]
  exact pyRound6_tanh_two_ne

/-- C7 (amended): for every output text containing at least one assertion
token and no evidence marker, and any weights, the evidence-gap score equals
the 6-decimal rounding of tanh(5/3 * 1.2) (the saturated value as analyze
serialises it), regardless of the rest of the content. -/
theorem evidence_gap_saturation (text : String) (w1 w2 w3 w4 : ℝ)
    (h1 : 0 < out_assert_count text) (h2 : out_has_evidence text = false) :
    (output_analyze text w1 w2 w3 w4).scores.evidence_gap
      = pyRound6 (Real.tanh (5/3 * 1.2)) :=
  out_evgap_score text w1 w2 w3 w4 h1 h2

/-- Witness for C7 on a concrete text with an assertion and other content. -/
theorem evidence_gap_saturation_witness :
    (0 < out_assert_count "the answer is definitely 42" ∧
      out_has_evidence "the answer is definitely 42" = false) ∧
    (output_analyze "the answer is definitely 42" 0.30 0.30 0.25 0.15).scores.evidence_gap
      = pyRound6 (Real.tanh (5/3 * 1.2)) :=
  ⟨⟨by decide, by decide⟩,
   evidence_gap_saturation "the answer is definitely 42" 0.30 0.30 0.25 0.15
     (by decide) (by decide)⟩

/-! Critical short-circuit (C5). -/

/-- C5: whenever the input analysis scores critical, process returns the
cool-down result with session_id none and attempts 0, the state untouched,
and the injected adapter is invoked zero times, for every adapter. -/
theorem critical_short_circuit (cfg : Config) (llm : LLM) (st : EngineState ℝ)
    (sid ts user_input domain : String) (context : Option CtxArg) (max_tokens : Nat)
    (h : (input_analyze user_input cfg.input_w_ambiguity cfg.input_w_assertion
      cfg.input_w_emotion cfg.input_w_unrealistic).risk_level = "critical") :
    process cfg llm st sid ts user_input domain context max_tokens
      = Except.ok (cool_down_result (input_analyze user_input cfg.input_w_ambiguity
          cfg.input_w_assertion cfg.input_w_emotion cfg.input_w_unrealistic), st, 0) ∧
    (cool_down_result (input_analyze user_input cfg.input_w_ambiguity
        cfg.input_w_assertion cfg.input_w_emotion cfg.input_w_unrealistic)).session_id
      = none ∧
    (cool_down_result (input_analyze user_input cfg.input_w_ambiguity
        cfg.input_w_assertion cfg.input_w_emotion cfg.input_w_unrealistic)).attempts = 0 ∧
    (cool_down_result (input_analyze user_input cfg.input_w_ambiguity
        cfg.input_w_assertion cfg.input_w_emotion cfg.input_w_unrealistic)).response
      = cool_down_msg (input_analyze user_input cfg.input_w_ambiguity
          cfg.input_w_assertion cfg.input_w_emotion cfg.input_w_unrealistic).warnings := by
  refine ⟨?_, rfl, rfl, rfl⟩
  simp only [process]
  rw [if_pos h]

/-- Lower bound on tanh from a lower bound on the exponential. -/
theorem tanh_gt_09 (x : ℝ) (h : (19:ℝ) < Real.exp (2*x)) : (0.9:ℝ) < Real.tanh x := by
  rw [tanh_eq_exp]
  have hpos : (0:ℝ) < Real.exp (2*x) + 1 := by positivity
  rw [lt_div_iff₀ hpos]
  linarith

/-- The exponential exceeds 19 from 6 on. -/
theorem exp_gt_19 (y : ℝ) (h : (6:ℝ) ≤ y) : (19:ℝ) < Real.exp y := by
  have h2 : (2:ℝ) < Real.exp 1 := by
    have := Real.exp_one_gt_d9
    linarith
  have hp : (2:ℝ) ^ (6:ℕ) < Real.exp 1 ^ (6:ℕ) :=
    pow_lt_pow_left₀ h2 (by norm_num) (by norm_num)
  have h6 : Real.exp 1 ^ (6:ℕ) = Real.exp 6 := by
    rw [← Real.exp_nat_mul]
    norm_num
  have hle : Real.exp 6 ≤ Real.exp y := Real.exp_le_exp.mpr h
  nlinarith [hp]

/-- The concrete text scores critical under the default weights: every input
category has nine hits, all four saturating scores exceed 0.9, and the
escalated pre-deviation reaches the 0.70 threshold. -/
theorem txt_crit_critical :
    (input_analyze txt_crit default_config.input_w_ambiguity
      default_config.input_w_assertion default_config.input_w_emotion
      default_config.input_w_unrealistic).risk_level = "critical" := by
  have hamb : input_c_amb txt_crit = 9 := by decide
  have hass : input_c_ass txt_crit = 9 := by decide
  have hemo : input_c_emo txt_crit = 9 := by decide
  have hunr : input_c_unr txt_crit = 9 := by decide
  have hactive : input_active txt_crit = 4 := by decide
  have hsat : ∀ s : ℝ, 1.1 ≤ s → (0.9:ℝ) < saturating_score 9 s := by
    intro s hs
    unfold saturating_score
    apply tanh_gt_09
    apply exp_gt_19
    have hc : ((9:ℕ):ℝ) = 9 := by norm_num
    rw [hc]
    nlinarith [hs]
  have b1 : (0.9:ℝ) < saturating_score 9 1.1 := hsat 1.1 (by norm_num)
  have b2 : (0.9:ℝ) < saturating_score 9 1.8 := hsat 1.8 (by norm_num)
  have b3 : (0.9:ℝ) < saturating_score 9 2.0 := hsat 2.0 (by norm_num)
  have hpb : (0.56:ℝ) ≤ input_pre_d_base txt_crit 0.20 0.25 0.30 0.25 := by
    unfold input_pre_d_base
    rw [hamb, hass, hemo, hunr]
    linarith
  have hge : input_pre_d txt_crit 0.20 0.25 0.30 0.25 ≥ 0.70 := by
    unfold input_pre_d
    rw [if_pos (show input_active txt_crit ≥ 3 by rw [hactive]; norm_num)]
    refine le_min (by norm_num) ?_
    linarith
  show (input_level (input_pre_d txt_crit 0.20 0.25 0.30 0.25)).1 = "critical"
  unfold input_level
  rw [if_pos hge]

/-- Witness for C5: the critical text with the default configuration, the
dummy adapter and the default state. -/
theorem critical_short_circuit_witness :
    (input_analyze txt_crit default_config.input_w_ambiguity
        default_config.input_w_assertion default_config.input_w_emotion
        default_config.input_w_unrealistic).risk_level = "critical" ∧
    (process default_config llm_dummy (default_state ℝ) "sid0" "ts0" txt_crit
        "general" none 1024
      = Except.ok (cool_down_result (input_analyze txt_crit
          default_config.input_w_ambiguity default_config.input_w_assertion
          default_config.input_w_emotion default_config.input_w_unrealistic),
          default_state ℝ, 0) ∧
    (cool_down_result (input_analyze txt_crit default_config.input_w_ambiguity
        default_config.input_w_assertion default_config.input_w_emotion
        default_config.input_w_unrealistic)).session_id = none ∧
    (cool_down_result (input_analyze txt_crit default_config.input_w_ambiguity
        default_config.input_w_assertion default_config.input_w_emotion
        default_config.input_w_unrealistic)).attempts = 0 ∧
    (cool_down_result (input_analyze txt_crit default_config.input_w_ambiguity
        default_config.input_w_assertion default_config.input_w_emotion
        default_config.input_w_unrealistic)).response
      = cool_down_msg (input_analyze txt_crit default_config.input_w_ambiguity
          default_config.input_w_assertion default_config.input_w_emotion
          default_config.input_w_unrealistic).warnings) :=
  ⟨txt_crit_critical,
   critical_short_circuit default_config llm_dummy (default_state ℝ) "sid0" "ts0"
     txt_crit "general" none 1024 txt_crit_critical⟩
